import Mathlib

/-! # Link engagement board (`src/App.jsx`): gate and mutation handlers

A shallow embedding of the `App` component's decision function `canSubmitLink`,
of its handlers `handleEnterInfo`, `handleEngageLink`, `handleReactLink` and
`handleSubmitLink`, and of the snapshot callback of its links listener.

Modelling conventions.

* An instant is its number of milliseconds since the epoch (`Int`), the value
  that `Timestamp.toDate()`, `new Date(..)` and `Date.now()` compare by.
* A nullable field is an `Option`; `none` stands for `null` and for a missing
  field alike, the program only ever tests such a field for truthiness.
* `Date.now()` is a parameter `now`; the reads of the clock made by one
  synchronous call are taken at the same instant.
* A handler returns the React state it leaves behind and the list of requests
  it sent to the remote store, in order.  Whether the store accepts a request
  is a parameter `accept`; a rejected request is the `catch` branch.
* `displayMessage` also schedules the notice to be cleared three seconds
  later; only the immediate `setMessage` / `setMessageType` is modelled.
-/

namespace App

/-! ## Data model -/

/-- One entry of a link document's `engagements` array. -/
structure Engagement where
  userId : String
  timestamp : Int
deriving DecidableEq, Repr

/-- A JavaScript object used as a map from user id to reaction kind,
as the list of its own properties in insertion order. -/
abbrev Reactions := List (String × String)

/-- The profile document `users/{uid}/profile/data`, also the shape of the
local `userProfile` state. -/
structure UserProfile where
  name : String
  xUsername : String
  lastLinkSubmissionTimestamp : Option Int
  lastEngagementTimestamp : Option Int
  userId : String
deriving DecidableEq, Repr

/-- A link as held in the local `links` state: the document id together with
the document's data. -/
structure Link where
  id : String
  url : String
  submittedByUserId : String
  submittedByName : String
  submittedByXUsername : String
  timestamp : Option Int
  reactions : Option Reactions
  engagements : Option (List Engagement)
deriving DecidableEq, Repr

/-- The part of the component's React state the handlers read or set. -/
structure AppState where
  db : Bool
  userId : Option String
  userName : String
  xUsername : String
  hasEnteredInfo : Bool
  userProfile : Option UserProfile
  links : List Link
  showSubmitModal : Bool
  newLinkUrl : String
  message : String
  messageType : String
deriving DecidableEq, Repr

/-- The constant `24 * 60 * 60 * 1000` of the two window checks. -/
def DAY_MS : Int := 24 * 60 * 60 * 1000

/-! ## Gate: `canSubmitLink` (lines 325-351) -/

/-- Embedding of `canSubmitLink`, closed over `userProfile` and `links`. -/
def canSubmitLink (s : AppState) (now : Int) : Bool :=
  match s.userProfile with
  | none => false
  | some userProfile =>
    let cooldown : Bool :=
      match userProfile.lastLinkSubmissionTimestamp with
      | some lastSubmissionTime =>
        let twentyFourHoursAgo := now - DAY_MS
        decide (lastSubmissionTime > twentyFourHoursAgo)
      | none => false
    if cooldown then false
    else if s.links.length > 0 then
      match userProfile.lastEngagementTimestamp with
      | some lastEngagementTime =>
        let twentyFourHoursAgo := now - DAY_MS
        if lastEngagementTime < twentyFourHoursAgo then false else true
      | none => false
    else true

/-! ## Requests to the remote store -/

/-- The value a handler writes into a timestamp field: `null`, or the
`serverTimestamp()` sentinel that the store replaces by its own clock. -/
inductive TsValue where
  | null
  | serverTimestamp
deriving DecidableEq, Repr

/-- The data object of a profile write; `none` is a field the object does not
mention. -/
structure ProfileFields where
  name : Option String := none
  xUsername : Option String := none
  lastLinkSubmissionTimestamp : Option TsValue := none
  lastEngagementTimestamp : Option TsValue := none
  userId : Option String := none
deriving DecidableEq, Repr

/-- The data object of a link update; `none` is a field the object does not
mention. -/
structure LinkFields where
  reactions : Option Reactions := none
  engagements : Option (List Engagement) := none
deriving DecidableEq, Repr

/-- The data object handed to `addDoc` for a new link. -/
structure NewLink where
  url : String
  submittedByUserId : String
  submittedByName : String
  submittedByXUsername : String
  timestamp : TsValue
  reactions : Reactions
  engagements : List Engagement
deriving DecidableEq, Repr

/-- A request to the remote store, named after the client call that sends it.
The string of the first three is the user id or link id of the document path. -/
inductive Write where
  | setDocMerge (uid : String) (data : ProfileFields)
  | updateProfile (uid : String) (data : ProfileFields)
  | updateLink (linkId : String) (data : LinkFields)
  | addLink (data : NewLink)
deriving DecidableEq, Repr

/-- What a handler call leaves behind: the React state and the requests sent. -/
structure Outcome where
  state : AppState
  issued : List Write
deriving DecidableEq, Repr

/-! ## Notices -/

def MSG_ENTER_BOTH : String := "Please enter both your name and X username."
def MSG_NOT_READY : String := "App not ready. Please wait."
def MSG_PROFILE_SAVED : String := "Profile saved successfully!"
def MSG_SAVE_FAILED : String := "Failed to save your information. Please try again."
def MSG_SIGN_IN_FIRST : String := "Please sign in or complete your profile first."
def MSG_ENGAGE_BEFORE_REACT : String := "You must engage with the link before reacting to it."
def MSG_REACT_FAILED : String := "Failed to record reaction. Please try again."
def MSG_ENTER_URL : String := "Please enter a link URL."
def MSG_COOLDOWN : String := "You can only submit one link every 24 hours."
def MSG_ENGAGE_RECENT : String :=
  "You must engage with another link within the last 24 hours before submitting a new one."
def MSG_ENGAGE_FIRST : String :=
  "You must engage with another link before submitting your first one."
def MSG_SUBMITTED : String := "Link submitted successfully!"
def MSG_SUBMIT_FAILED : String := "Failed to submit link. Please try again."

/-- Embedding of `displayMessage` (lines 153-160), without the timer. -/
def displayMessage (s : AppState) (msg type : String) : AppState :=
  { s with message := msg, messageType := type }

/-! ## `handleEnterInfo` (lines 162-190) -/

/-- Embedding of `handleEnterInfo`. -/
def handleEnterInfo (s : AppState) (accept : Write → Bool) : Outcome :=
  if s.userName = "" ∨ s.xUsername = "" then
    ⟨displayMessage s MSG_ENTER_BOTH "error", []⟩
  else
    match s.db, s.userId with
    | true, some userId =>
      if userId = "" then ⟨displayMessage s MSG_NOT_READY "error", []⟩
      else
        let w := Write.setDocMerge userId
          { name := some s.userName
            xUsername := some s.xUsername
            lastLinkSubmissionTimestamp := some TsValue.null
            lastEngagementTimestamp := some TsValue.null
            userId := some userId }
        if accept w then
          let s1 := { s with
            userProfile := some
              { name := s.userName, xUsername := s.xUsername, userId := userId,
                lastLinkSubmissionTimestamp := none, lastEngagementTimestamp := none }
            hasEnteredInfo := true }
          ⟨displayMessage s1 MSG_PROFILE_SAVED "success", [w]⟩
        else
          ⟨displayMessage s MSG_SAVE_FAILED "error", [w]⟩
    | _, _ => ⟨displayMessage s MSG_NOT_READY "error", []⟩

/-! ## `handleReactLink` (lines 224-254) -/

/-- The expression `link?.engagements?.some(e => e.userId === userId) || false`
of lines 235 and 479. -/
def hasEngaged (link : Option Link) (userId : String) : Bool :=
  match link with
  | none => false
  | some l =>
    match l.engagements with
    | none => false
    | some es => es.any (fun e => decide (e.userId = userId))

/-- The object `{ ...obj, [key]: value }`: the property is replaced in place
when `obj` has it and added last otherwise.  JavaScript enumerates an
integer-like key before the others; the list keeps insertion order, which
no read of the program depends on: properties are only looked up by key. -/
def spreadSet : Reactions → String → String → Reactions
  | [], key, value => [(key, value)]
  | (k, v) :: rest, key, value =>
    if k = key then (key, value) :: rest else (k, v) :: spreadSet rest key value

/-- The property read `obj[key]`. -/
def getProp (obj : Reactions) (key : String) : Option String :=
  (obj.find? (fun kv => decide (kv.1 = key))).map Prod.snd

/-- Embedding of `handleReactLink`. -/
def handleReactLink (s : AppState) (linkId reactionType : String)
    (accept : Write → Bool) : Outcome :=
  match s.db, s.userId, s.userProfile with
  | true, some userId, some _ =>
    if userId = "" then ⟨displayMessage s MSG_SIGN_IN_FIRST "error", []⟩
    else
      let link := s.links.find? (fun l => decide (l.id = linkId))
      if !hasEngaged link userId then
        ⟨displayMessage s MSG_ENGAGE_BEFORE_REACT "error", []⟩
      else
        let currentReactions : Reactions := (link.bind (fun l => l.reactions)).getD []
        let newReactions := spreadSet currentReactions userId reactionType
        let w := Write.updateLink linkId { reactions := some newReactions }
        if accept w then
          ⟨displayMessage s ("You reacted with " ++ reactionType ++ "!") "success", [w]⟩
        else
          ⟨displayMessage s MSG_REACT_FAILED "error", [w]⟩
  | _, _, _ => ⟨displayMessage s MSG_SIGN_IN_FIRST "error", []⟩

/-! ## `handleSubmitLink` (lines 256-323) -/

/-- The checks of lines 270-297: the notice of the first check that refuses,
or `none` when the handler goes on to the writes. -/
def submitRefusal (userProfile : UserProfile) (links : List Link) (now : Int) :
    Option String :=
  let cooldown : Bool :=
    match userProfile.lastLinkSubmissionTimestamp with
    | some lastSubmissionTime =>
      let twentyFourHoursAgo := now - DAY_MS
      decide (lastSubmissionTime > twentyFourHoursAgo)
    | none => false
  if cooldown then some MSG_COOLDOWN
  else
    match userProfile.lastEngagementTimestamp with
    | some lastEngagementTime =>
      let twentyFourHoursAgo := now - DAY_MS
      if lastEngagementTime < twentyFourHoursAgo then some MSG_ENGAGE_RECENT else none
    | none =>
      if links.length > 0 then some MSG_ENGAGE_FIRST else none

/-- Embedding of `handleSubmitLink`. -/
def handleSubmitLink (s : AppState) (now : Int) (accept : Write → Bool) : Outcome :=
  if s.newLinkUrl = "" then ⟨displayMessage s MSG_ENTER_URL "error", []⟩
  else
    match s.db, s.userId, s.userProfile with
    | true, some userId, some userProfile =>
      if userId = "" then ⟨displayMessage s MSG_NOT_READY "error", []⟩
      else
        match submitRefusal userProfile s.links now with
        | some msg =>
          ⟨{ displayMessage s msg "error" with showSubmitModal := false }, []⟩
        | none =>
          let w1 := Write.addLink
            { url := s.newLinkUrl
              submittedByUserId := userId
              submittedByName := userProfile.name
              submittedByXUsername := userProfile.xUsername
              timestamp := TsValue.serverTimestamp
              reactions := []
              engagements := [] }
          if accept w1 then
            let w2 := Write.updateProfile userId
              { lastLinkSubmissionTimestamp := some TsValue.serverTimestamp }
            if accept w2 then
              let s1 := { s with newLinkUrl := "", showSubmitModal := false }
              ⟨displayMessage s1 MSG_SUBMITTED "success", [w1, w2]⟩
            else
              ⟨displayMessage s MSG_SUBMIT_FAILED "error", [w1, w2]⟩
          else
            ⟨displayMessage s MSG_SUBMIT_FAILED "error", [w1]⟩
    | _, _, _ => ⟨displayMessage s MSG_NOT_READY "error", []⟩

/-! ## The links listener (lines 133-140) -/

/-- The sort key `timestamp?.toMillis() || 0` of line 139. -/
def sortKey (l : Link) : Int :=
  match l.timestamp with
  | none => 0
  | some t => if t = 0 then 0 else t

/-- The comparator of line 139: negative when `a` goes before `b`. -/
def compareLinks (a b : Link) : Int := sortKey b - sortKey a

/-- One link put into a list that is in comparator order: in front of the
first link the comparator does not put before it. -/
def insertLink (a : Link) : List Link → List Link
  | [] => [a]
  | b :: rest => if compareLinks a b ≤ 0 then a :: b :: rest else b :: insertLink a rest

/-- The call `fetchedLinks.sort(compare)`: a stable sort, links the comparator
holds equal keep the order of delivery. -/
def sortLinks : List Link → List Link
  | [] => []
  | a :: rest => insertLink a (sortLinks rest)

/-- Embedding of the snapshot callback of the links listener, `docs` being the
documents of the push, each with its id. -/
def linksListener (s : AppState) (docs : List Link) : AppState :=
  { s with links := sortLinks docs }

/-! ## `handleEngageLink` (lines 192-222) -/

def MSG_ENGAGED : String := "Engagement recorded! The link opened in a new tab."
def MSG_ENGAGE_FAILED : String := "Failed to record engagement. Please try again."

/-- What a call of handleEngageLink leaves behind: the React state, the
requests sent, and the urls opened in a new tab. -/
structure EngageOutcome where
  state : AppState
  issued : List Write
  opened : List String
deriving DecidableEq, Repr

/-- The expression `links.find(l => l.id === linkId)?.engagements || []` of
line 209. -/
def localEngagements (links : List Link) (linkId : String) : List Engagement :=
  match links.find? (fun l => decide (l.id = linkId)) with
  | none => []
  | some l =>
    match l.engagements with
    | none => []
    | some es => es

/-- Embedding of `handleEngageLink`; `now` is the instant of `new Date()`. -/
def handleEngageLink (s : AppState) (linkId url : String) (now : Int)
    (accept : Write → Bool) : EngageOutcome :=
  match s.db, s.userId, s.userProfile with
  | true, some userId, some _ =>
    if userId = "" then ⟨displayMessage s MSG_SIGN_IN_FIRST "error", [], []⟩
    else
      let w1 := Write.updateLink linkId
        { engagements := some (localEngagements s.links linkId ++
            [{ userId := userId, timestamp := now }]) }
      if accept w1 then
        let w2 := Write.updateProfile userId
          { lastEngagementTimestamp := some TsValue.serverTimestamp }
        if accept w2 then
          ⟨displayMessage s MSG_ENGAGED "success", [w1, w2], [url]⟩
        else
          ⟨displayMessage s MSG_ENGAGE_FAILED "error", [w1, w2], [url]⟩
      else
        ⟨displayMessage s MSG_ENGAGE_FAILED "error", [w1], [url]⟩
  | _, _, _ => ⟨displayMessage s MSG_SIGN_IN_FIRST "error", [], []⟩

/-! ## The remote store

The store is the external document database.  Its contract, as the handlers
rely on it: `setDoc` with `merge: true` writes the fields its data object
mentions and keeps the others, creating the document when it is absent;
`updateDoc` does the same on an existing document and fails on an absent one;
`addDoc` adds a document under an id the store chooses; a `serverTimestamp()`
sentinel is replaced by the instant of the store's clock. -/

/-- The documents of the store: one profile document per user id, and the
links collection. -/
structure Store where
  profiles : String → Option UserProfile
  links : List Link

/-- The stored value of a written timestamp field. -/
def resolveTs (serverNow : Int) : TsValue → Option Int
  | TsValue.null => none
  | TsValue.serverTimestamp => some serverNow

/-- Field-wise merge of a data object into a profile document; an absent
document merges as one without content. -/
def mergeProfile (serverNow : Int) (old : Option UserProfile) (d : ProfileFields) :
    UserProfile :=
  let base : UserProfile := old.getD
    { name := "", xUsername := "", lastLinkSubmissionTimestamp := none,
      lastEngagementTimestamp := none, userId := "" }
  { name := d.name.getD base.name
    xUsername := d.xUsername.getD base.xUsername
    lastLinkSubmissionTimestamp :=
      match d.lastLinkSubmissionTimestamp with
      | none => base.lastLinkSubmissionTimestamp
      | some v => resolveTs serverNow v
    lastEngagementTimestamp :=
      match d.lastEngagementTimestamp with
      | none => base.lastEngagementTimestamp
      | some v => resolveTs serverNow v
    userId := d.userId.getD base.userId }

/-- Field-wise merge of a data object into a link document. -/
def mergeLink (l : Link) (d : LinkFields) : Link :=
  { l with
    reactions := match d.reactions with
      | none => l.reactions
      | some r => some r
    engagements := match d.engagements with
      | none => l.engagements
      | some e => some e }

/-- The store after it commits one request at instant `serverNow`, `newId`
being the id it gives to an added document; `none` when the request fails. -/
def commit (st : Store) (serverNow : Int) (newId : String) : Write → Option Store
  | Write.setDocMerge uid d =>
    some { st with profiles := fun k =>
      if k = uid then some (mergeProfile serverNow (st.profiles uid) d) else st.profiles k }
  | Write.updateProfile uid d =>
    match st.profiles uid with
    | none => none
    | some p =>
      some { st with profiles := fun k =>
        if k = uid then some (mergeProfile serverNow (some p) d) else st.profiles k }
  | Write.updateLink linkId d =>
    if st.links.any (fun l => decide (l.id = linkId)) then
      some { st with links := st.links.map (fun l => if l.id = linkId then mergeLink l d else l) }
    else none
  | Write.addLink d =>
    some { st with links := st.links ++
      [{ id := newId, url := d.url, submittedByUserId := d.submittedByUserId,
         submittedByName := d.submittedByName,
         submittedByXUsername := d.submittedByXUsername,
         timestamp := resolveTs serverNow d.timestamp,
         reactions := some d.reactions, engagements := some d.engagements }] }

/-! ## Sample data -/

/-- A profile with both timestamps set. -/
def annProfile (lastSubmission lastEngagement : Option Int) : UserProfile :=
  { name := "Ann", xUsername := "@ann", lastLinkSubmissionTimestamp := lastSubmission,
    lastEngagementTimestamp := lastEngagement, userId := "u1" }

/-- A link of the board submitted by another user. -/
def bobLink (engagements : Option (List Engagement)) (reactions : Option Reactions) : Link :=
  { id := "L1", url := "http://x/1", submittedByUserId := "u2", submittedByName := "Bob",
    submittedByXUsername := "@bob", timestamp := some 5, reactions := reactions,
    engagements := engagements }

/-- The state of a signed-in, onboarded user. -/
def readyState (profile : Option UserProfile) (links : List Link) (url : String) : AppState :=
  { db := true, userId := some "u1", userName := "Ann", xUsername := "@ann",
    hasEnteredInfo := true, userProfile := profile, links := links,
    showSubmitModal := true, newLinkUrl := url, message := "", messageType := "" }

/-- A store that holds the profile document of user `u1` and no link. -/
def annStore (profile : UserProfile) : Store :=
  { profiles := fun k => if k = "u1" then some profile else none, links := [] }

/-- A link of the board with the given id and timestamp. -/
def stampedLink (id : String) (timestamp : Option Int) : Link :=
  { id := id, url := "http://x/" ++ id, submittedByUserId := "u2", submittedByName := "Bob",
    submittedByXUsername := "@bob", timestamp := timestamp, reactions := some [],
    engagements := some [] }

/-! ## Gate theorems -/

/-- C1: with a profile whose lastLinkSubmissionTimestamp is present and less than
24 hours before now, canSubmitLink returns false, whatever the last engagement
and the link list are. -/
theorem C1_cooldown_blocks (s : AppState) (now : Int) (p : UserProfile) (t : Int)
    (hp : s.userProfile = some p) (ht : p.lastLinkSubmissionTimestamp = some t)
    (h : now - t < DAY_MS) : canSubmitLink s now = false := by
  have h1 : t > now - DAY_MS := by omega
  simp [canSubmitLink, hp, ht, h1]

/-- Witness of C1: one hour after a submission, on an empty board and with a
fresh engagement. -/
theorem C1_cooldown_blocks_witness :
    (3600000 : Int) - 0 < DAY_MS ∧
      canSubmitLink (readyState (some (annProfile (some 0) (some 3599999))) [] "") 3600000
        = false :=
  ⟨by decide, C1_cooldown_blocks _ 3600000 (annProfile (some 0) (some 3599999)) 0 rfl rfl
    (by decide)⟩

/-- The checks of handleSubmitLink against canSubmitLink: they agree except on
an empty board with an engagement older than 24 hours, where only
canSubmitLink allows. -/
theorem submitRefusal_none_iff (s : AppState) (now : Int) (p : UserProfile)
    (hp : s.userProfile = some p) :
    submitRefusal p s.links now = none ↔
      (canSubmitLink s now = true ∧
        ¬ (s.links = [] ∧ ∃ e, p.lastEngagementTimestamp = some e ∧ e < now - DAY_MS)) := by
  cases hsub : p.lastLinkSubmissionTimestamp with
  | none =>
    cases heng : p.lastEngagementTimestamp with
    | none => cases hl : s.links <;> simp [submitRefusal, canSubmitLink, hp, hsub, heng, hl]
    | some e =>
      cases hl : s.links <;> by_cases he : e < now - DAY_MS <;>
        simp [submitRefusal, canSubmitLink, hp, hsub, heng, hl, he]
  | some t =>
    by_cases ht : t > now - DAY_MS
    · simp [submitRefusal, canSubmitLink, hp, hsub, ht]
    · cases heng : p.lastEngagementTimestamp with
      | none =>
        cases hl : s.links <;> simp [submitRefusal, canSubmitLink, hp, hsub, heng, hl, ht]
      | some e =>
        cases hl : s.links <;> by_cases he : e < now - DAY_MS <;>
          simp [submitRefusal, canSubmitLink, hp, hsub, heng, hl, ht, he]

/-- C2: on an empty board, with no submission yet and an engagement older than
24 hours, canSubmitLink returns true while handleSubmitLink refuses with the
re-engagement notice and sends nothing to the store. -/
theorem C2_submit_gate_differs_from_canSubmitLink :
    canSubmitLink (readyState (some (annProfile none (some 0))) [] "http://x/2") 86400001
        = true ∧
      (handleSubmitLink (readyState (some (annProfile none (some 0))) [] "http://x/2")
        86400001 (fun _ => true)).issued = [] ∧
      (handleSubmitLink (readyState (some (annProfile none (some 0))) [] "http://x/2")
        86400001 (fun _ => true)).state.message = MSG_ENGAGE_RECENT := by
  refine ⟨by decide, by decide, by decide⟩

/-- C6: when the cooldown is not active and either the board is empty or the
last engagement is less than 24 hours old, canSubmitLink returns true; in
particular on an empty board with no submission yet it returns true whatever
lastEngagementTimestamp is. -/
theorem C6_allowed (s : AppState) (now : Int) (p : UserProfile)
    (hp : s.userProfile = some p) :
    ((p.lastLinkSubmissionTimestamp = none ∨
        ∃ t, p.lastLinkSubmissionTimestamp = some t ∧ now - t ≥ DAY_MS) →
      (s.links = [] ∨ ∃ e, p.lastEngagementTimestamp = some e ∧ now - e < DAY_MS) →
      canSubmitLink s now = true) ∧
    (s.links = [] → p.lastLinkSubmissionTimestamp = none → canSubmitLink s now = true) := by
  have key : (p.lastLinkSubmissionTimestamp = none ∨
        ∃ t, p.lastLinkSubmissionTimestamp = some t ∧ now - t ≥ DAY_MS) →
      (s.links = [] ∨ ∃ e, p.lastEngagementTimestamp = some e ∧ now - e < DAY_MS) →
      canSubmitLink s now = true := by
    intro hsub hgate
    unfold canSubmitLink
    rw [hp]
    have hcool : (match p.lastLinkSubmissionTimestamp with
        | some lastSubmissionTime => decide (lastSubmissionTime > now - DAY_MS)
        | none => false) = false := by
      rcases hsub with h | ⟨t, h, ht⟩
      · simp [h]
      · have : ¬ (t > now - DAY_MS) := by omega
        simp [h, this]
    simp only [hcool]
    rcases hgate with hl | ⟨e, he, hfresh⟩
    · simp [hl]
    · have : ¬ (e < now - DAY_MS) := by omega
      simp [he, this]
  exact ⟨key, fun hl hs => key (Or.inl hs) (Or.inl hl)⟩

/-- Witness of C6: exactly 24 hours after the last submission, on a board with
one link and an engagement one millisecond old. -/
theorem C6_allowed_witness :
    canSubmitLink (readyState (some (annProfile (some 0) (some 86399999)))
      [bobLink none none] "") 86400000 = true :=
  (C6_allowed (readyState (some (annProfile (some 0) (some 86399999)))
      [bobLink none none] "") 86400000 (annProfile (some 0) (some 86399999)) rfl).1
    (Or.inr ⟨0, rfl, by decide⟩) (Or.inr ⟨86399999, rfl, by decide⟩)

/-- C7, as the claim states it, fails: on a non-empty board, an engagement
exactly 24 hours old still lets canSubmitLink return true. -/
theorem C7_counterexample_exactly_24h :
    (readyState (some (annProfile none (some 0))) [bobLink none none] "").links ≠ [] ∧
      (86400000 : Int) - 0 ≥ DAY_MS ∧
      canSubmitLink (readyState (some (annProfile none (some 0))) [bobLink none none] "")
        86400000 = true := by
  refine ⟨by decide, by decide, by decide⟩

/-- C7, amended: on a non-empty board, when lastEngagementTimestamp is present
and strictly more than 24 hours before now, canSubmitLink returns false; when
it is exactly 24 hours before now the engagement still counts, canSubmitLink
returns true exactly when the cooldown is not active. -/
theorem C7_stale_engagement_blocks (s : AppState) (now : Int) (p : UserProfile) (e : Int)
    (hp : s.userProfile = some p) (hl : s.links ≠ [])
    (he : p.lastEngagementTimestamp = some e) :
    (now - e > DAY_MS → canSubmitLink s now = false) ∧
      (now - e = DAY_MS →
        (canSubmitLink s now = true ↔
          (p.lastLinkSubmissionTimestamp = none ∨
            ∃ t, p.lastLinkSubmissionTimestamp = some t ∧ now - t ≥ DAY_MS))) := by
  have h2 : 0 < s.links.length := List.length_pos.mpr hl
  constructor
  · intro h
    have h1 : e < now - DAY_MS := by omega
    unfold canSubmitLink
    rw [hp]
    simp only [he]
    split
    · rfl
    · simp [h2, h1]
  · intro h
    have h1 : ¬ (e < now - DAY_MS) := by omega
    cases hsub : p.lastLinkSubmissionTimestamp with
    | none => simp [canSubmitLink, hp, hsub, he, h2, h1]
    | some t =>
      by_cases ht : t > now - DAY_MS
      · have ht2 : ¬ (DAY_MS ≤ now - t) := by omega
        simp [canSubmitLink, hp, hsub, ht, ht2]
      · have ht2 : DAY_MS ≤ now - t := by omega
        simp [canSubmitLink, hp, hsub, he, h2, h1, ht, ht2]

/-- Witness of C7 amended: refused one millisecond past 24 hours, allowed at
exactly 24 hours. -/
theorem C7_stale_engagement_blocks_witness :
    canSubmitLink (readyState (some (annProfile none (some 0))) [bobLink none none] "")
        86400001 = false ∧
      canSubmitLink (readyState (some (annProfile none (some 0))) [bobLink none none] "")
        86400000 = true :=
  ⟨(C7_stale_engagement_blocks _ 86400001 (annProfile none (some 0)) 0 rfl (by decide) rfl).1
      (by decide),
    ((C7_stale_engagement_blocks _ 86400000 (annProfile none (some 0)) 0 rfl (by decide)
      rfl).2 (by decide)).mpr (Or.inl rfl)⟩

/-- C8: on a non-empty board, a profile without lastEngagementTimestamp makes
canSubmitLink return false at every instant, also when
lastLinkSubmissionTimestamp is absent too. -/
theorem C8_never_engaged_blocks (s : AppState) (now : Int) (p : UserProfile)
    (hp : s.userProfile = some p) (hl : s.links ≠ [])
    (he : p.lastEngagementTimestamp = none) : canSubmitLink s now = false := by
  have h2 : 0 < s.links.length := List.length_pos.mpr hl
  unfold canSubmitLink
  rw [hp]
  simp only [he]
  split
  · rfl
  · simp [h2]

/-- Witness of C8: neither timestamp present, one link on the board. -/
theorem C8_never_engaged_blocks_witness :
    canSubmitLink (readyState (some (annProfile none none)) [bobLink none none] "") 1000
      = false :=
  C8_never_engaged_blocks _ 1000 (annProfile none none) rfl (by decide) rfl

/-! ## Handler theorems -/

/-- An active cooldown is the first refusal of handleSubmitLink. -/
theorem submitRefusal_cooldown (p : UserProfile) (links : List Link) (now t : Int)
    (ht : p.lastLinkSubmissionTimestamp = some t) (h : now - t < DAY_MS) :
    submitRefusal p links now = some MSG_COOLDOWN := by
  have h1 : t > now - DAY_MS := by omega
  simp [submitRefusal, ht, h1]

/-- C3, as the claim states it, fails: with an empty url the call made during
the cooldown is refused with the url notice, not the cooldown notice. -/
theorem C3_counterexample_empty_url :
    (annProfile (some 0) none).lastLinkSubmissionTimestamp = some 0 ∧
      (3600000 : Int) - 0 < DAY_MS ∧
      (handleSubmitLink (readyState (some (annProfile (some 0) none)) [] "") 3600000
        (fun _ => true)).state.message = MSG_ENTER_URL ∧
      MSG_ENTER_URL ≠ MSG_COOLDOWN := by
  refine ⟨rfl, by decide, by decide, by decide⟩

/-- C3, amended: when lastLinkSubmissionTimestamp is present and less than 24
hours before now, handleSubmitLink sends no request to the store, for every
url; when the url is non-empty and the store handle and user id are
available, it shows the cooldown notice as an error and closes the modal; when
the url is empty it shows the notice asking for a url instead, as an error. -/
theorem C3_cooldown_rejects_submit (s : AppState) (now : Int) (accept : Write → Bool)
    (p : UserProfile) (t : Int)
    (hp : s.userProfile = some p) (ht : p.lastLinkSubmissionTimestamp = some t)
    (h : now - t < DAY_MS) :
    (handleSubmitLink s now accept).issued = [] ∧
      (s.newLinkUrl ≠ "" → s.db = true → (∃ u, s.userId = some u ∧ u ≠ "") →
        (handleSubmitLink s now accept).state.message = MSG_COOLDOWN ∧
        (handleSubmitLink s now accept).state.messageType = "error" ∧
        (handleSubmitLink s now accept).state.showSubmitModal = false ∧
        (handleSubmitLink s now accept).state.userProfile = s.userProfile) ∧
      (s.newLinkUrl = "" →
        (handleSubmitLink s now accept).state.message = MSG_ENTER_URL ∧
        (handleSubmitLink s now accept).state.messageType = "error" ∧
        (handleSubmitLink s now accept).state.userProfile = s.userProfile) := by
  have hr := submitRefusal_cooldown p s.links now t ht h
  refine ⟨?_, ?_, ?_⟩
  · unfold handleSubmitLink
    by_cases hurl : s.newLinkUrl = ""
    · simp [hurl]
    · cases hdb : s.db <;> cases hu : s.userId <;> simp [hurl, hp, hr]
      split <;> rfl
  · rintro hurl hdb ⟨u, hu, hne⟩
    simp [handleSubmitLink, hurl, hdb, hu, hne, hp, hr, displayMessage]
  · intro hurl
    simp [handleSubmitLink, hurl, displayMessage]

/-- Witness of C3 amended: a second submit one hour after the first, with a url
and without. -/
theorem C3_cooldown_rejects_submit_witness :
    (handleSubmitLink (readyState (some (annProfile (some 0) none)) [bobLink none none]
        "http://x/2") 3600000 (fun _ => true)).issued = [] ∧
      (handleSubmitLink (readyState (some (annProfile (some 0) none)) [bobLink none none]
        "http://x/2") 3600000 (fun _ => true)).state.message = MSG_COOLDOWN ∧
      (handleSubmitLink (readyState (some (annProfile (some 0) none)) [bobLink none none]
        "") 3600000 (fun _ => true)).state.message = MSG_ENTER_URL :=
  have h := C3_cooldown_rejects_submit
    (readyState (some (annProfile (some 0) none)) [bobLink none none] "http://x/2") 3600000
    (fun _ => true) (annProfile (some 0) none) 0 rfl rfl (by decide)
  have h0 := C3_cooldown_rejects_submit
    (readyState (some (annProfile (some 0) none)) [bobLink none none] "") 3600000
    (fun _ => true) (annProfile (some 0) none) 0 rfl rfl (by decide)
  ⟨h.1, (h.2.1 (by decide) rfl ⟨"u1", rfl, by decide⟩).1, (h0.2.2 rfl).1⟩

/-- The test of line 235 is false exactly when the local copy is absent, has
no engagements field, or has no entry of the user. -/
theorem hasEngaged_eq_false_iff (link : Option Link) (u : String) :
    hasEngaged link u = false ↔
      ∀ l, link = some l → ∀ es, l.engagements = some es → ∀ e ∈ es, e.userId ≠ u := by
  cases link with
  | none => simp [hasEngaged]
  | some l =>
    cases hes : l.engagements with
    | none => simp [hasEngaged, hes]
    | some es =>
      simp [hasEngaged, hes]

/-- Reading the set key of a spread object gives the set value. -/
theorem getProp_spreadSet_same (obj : Reactions) (key value : String) :
    getProp (spreadSet obj key value) key = some value := by
  induction obj with
  | nil => simp [spreadSet, getProp]
  | cons kv rest ih =>
    obtain ⟨k, v⟩ := kv
    by_cases hk : k = key
    · simp [spreadSet, getProp, hk]
    · simp only [getProp] at ih
      simp [spreadSet, getProp, hk, ih]

/-- Reading another key of a spread object gives what the object had. -/
theorem getProp_spreadSet_other (obj : Reactions) (key value other : String)
    (hne : other ≠ key) :
    getProp (spreadSet obj key value) other = getProp obj other := by
  induction obj with
  | nil =>
    have : ¬ key = other := fun h => hne h.symm
    simp [spreadSet, getProp, this]
  | cons kv rest ih =>
    obtain ⟨k, v⟩ := kv
    by_cases hk : k = key
    · have : ¬ key = other := fun h => hne h.symm
      simp [spreadSet, getProp, hk, this]
    · by_cases hko : k = other
      · subst hko
        simp [spreadSet, getProp, hk]
      · simp only [getProp] at ih
        simp [spreadSet, getProp, hk, hko, ih]

/-- The keys of a spread object: those of the object, with the set key added
last when the object did not have it. -/
theorem keys_spreadSet (obj : Reactions) (key value : String) :
    (spreadSet obj key value).map Prod.fst =
      if key ∈ obj.map Prod.fst then obj.map Prod.fst else obj.map Prod.fst ++ [key] := by
  induction obj with
  | nil => simp [spreadSet]
  | cons kv rest ih =>
    obtain ⟨k, v⟩ := kv
    by_cases hk : k = key
    · simp [spreadSet, hk]
    · have hk2 : ¬ key = k := fun h => hk h.symm
      simp only [spreadSet, hk, if_false, List.map_cons, ih, List.mem_cons, hk2, false_or]
      split <;> simp

/-- C4: when the local copy of the link, if there is one, has no engagements
entry of the acting user, handleReactLink sends no request to the store and
shows an error notice; with the store handle, a user id and a profile
available the notice is the one asking to engage first. -/
theorem C4_react_without_engagement (s : AppState) (linkId reactionType : String)
    (accept : Write → Bool)
    (h : ∀ u, s.userId = some u →
      ∀ l, s.links.find? (fun l => decide (l.id = linkId)) = some l →
        ∀ es, l.engagements = some es → ∀ e ∈ es, e.userId ≠ u) :
    (handleReactLink s linkId reactionType accept).issued = [] ∧
      (handleReactLink s linkId reactionType accept).state.messageType = "error" ∧
      ((handleReactLink s linkId reactionType accept).state.message = MSG_ENGAGE_BEFORE_REACT ∨
        (handleReactLink s linkId reactionType accept).state.message = MSG_SIGN_IN_FIRST) ∧
      (s.db = true → (∃ u, s.userId = some u ∧ u ≠ "") → s.userProfile ≠ none →
        (handleReactLink s linkId reactionType accept).state.message
          = MSG_ENGAGE_BEFORE_REACT) := by
  cases hdb : s.db with
  | false => simp [handleReactLink, hdb, displayMessage]
  | true =>
    cases hu : s.userId with
    | none => simp [handleReactLink, hdb, hu, displayMessage]
    | some u =>
      cases hp : s.userProfile with
      | none => simp [handleReactLink, hdb, hu, hp, displayMessage]
      | some p =>
        have he : hasEngaged (s.links.find? (fun l => decide (l.id = linkId))) u = false :=
          (hasEngaged_eq_false_iff _ u).mpr (h u hu)
        by_cases hne : u = ""
        · simp [handleReactLink, hdb, hu, hp, hne, displayMessage]
        · simp [handleReactLink, hdb, hu, hp, hne, he, displayMessage]

/-- Witness of C4: the link was engaged by another user only. -/
theorem C4_react_without_engagement_witness :
    (handleReactLink (readyState (some (annProfile none none))
        [bobLink (some [⟨"u3", 7⟩]) none] "") "L1" "like" (fun _ => true)).issued = [] ∧
      (handleReactLink (readyState (some (annProfile none none))
        [bobLink (some [⟨"u3", 7⟩]) none] "") "L1" "like" (fun _ => true)).state.message
        = MSG_ENGAGE_BEFORE_REACT :=
  have h := C4_react_without_engagement (readyState (some (annProfile none none))
    [bobLink (some [⟨"u3", 7⟩]) none] "") "L1" "like" (fun _ => true) (by decide)
  ⟨h.1, h.2.2.2 rfl ⟨"u1", rfl, by decide⟩ (by decide)⟩

/-- C5: with the store handle, a user id and a profile available, and a local
copy of the link that has an engagements entry of the acting user,
handleReactLink sends one request, which overwrites the reactions of that link
with the previous local map in which the entry of the user is set to the given
kind: reading the user gives that kind, reading any other user gives what the
map had, the user keeps a single key (added last when new), and once the store
commits the request every document of that id reads the kind for the user. -/
theorem C5_react_sets_entry (s : AppState) (linkId kind : String) (accept : Write → Bool)
    (u : String) (p : UserProfile) (l : Link) (es : List Engagement)
    (hdb : s.db = true) (hu : s.userId = some u) (hne : u ≠ "")
    (hp : s.userProfile = some p)
    (hl : s.links.find? (fun l => decide (l.id = linkId)) = some l)
    (hes : l.engagements = some es) (hmem : ∃ e ∈ es, e.userId = u) :
    (handleReactLink s linkId kind accept).issued =
        [Write.updateLink linkId
          { reactions := some (spreadSet (l.reactions.getD []) u kind) }] ∧
      getProp (spreadSet (l.reactions.getD []) u kind) u = some kind ∧
      (∀ v, v ≠ u →
        getProp (spreadSet (l.reactions.getD []) u kind) v = getProp (l.reactions.getD []) v) ∧
      (spreadSet (l.reactions.getD []) u kind).map Prod.fst =
        (if u ∈ (l.reactions.getD []).map Prod.fst then (l.reactions.getD []).map Prod.fst
         else (l.reactions.getD []).map Prod.fst ++ [u]) ∧
      (∀ (st st1 : Store) (serverNow : Int) (newId : String),
        commit st serverNow newId (Write.updateLink linkId
          { reactions := some (spreadSet (l.reactions.getD []) u kind) }) = some st1 →
        ∀ d ∈ st1.links, d.id = linkId → d.reactions.bind (fun r => getProp r u) = some kind) := by
  have he : hasEngaged (some l) u = true := by
    obtain ⟨e, hein, heu⟩ := hmem
    simp only [hasEngaged, hes]
    exact List.any_eq_true.mpr ⟨e, hein, by simpa using heu⟩
  refine ⟨?_, getProp_spreadSet_same _ _ _, fun v hv => getProp_spreadSet_other _ _ _ _ hv,
    keys_spreadSet _ _ _, ?_⟩
  · unfold handleReactLink
    simp only [hdb, hu, hp, hne, if_false, hl]
    cases hr : l.reactions <;> by_cases ha : accept (Write.updateLink linkId
      { reactions := some (spreadSet (l.reactions.getD []) u kind) }) = true <;>
      simp [hr] at ha ⊢ <;> simp [ha, he]
  · intro st st1 serverNow newId hc d hd hid
    simp only [commit] at hc
    split at hc
    · injection hc with hc
      subst hc
      simp only [List.mem_map] at hd
      obtain ⟨x, _, hx⟩ := hd
      by_cases hxi : x.id = linkId
      · simp only [hxi, if_true] at hx
        subst hx
        simp [mergeLink, getProp_spreadSet_same]
      · simp only [hxi, if_false] at hx
        subst hx
        exact absurd hid hxi
    · exact absurd hc (by simp)

/-- Witness of C5: the user engaged the link and had reacted before. -/
theorem C5_react_sets_entry_witness :
    (handleReactLink (readyState (some (annProfile none (some 7)))
        [bobLink (some [⟨"u1", 7⟩]) (some [("u3", "like"), ("u1", "like")])] "")
        "L1" "love" (fun _ => true)).issued =
      [Write.updateLink "L1" { reactions := some [("u3", "like"), ("u1", "love")] }] :=
  (C5_react_sets_entry (readyState (some (annProfile none (some 7)))
      [bobLink (some [⟨"u1", 7⟩]) (some [("u3", "like"), ("u1", "like")])] "")
    "L1" "love" (fun _ => true) "u1" (annProfile none (some 7))
    (bobLink (some [⟨"u1", 7⟩]) (some [("u3", "like"), ("u1", "like")])) [⟨"u1", 7⟩]
    rfl rfl (by decide) rfl (by decide) rfl ⟨⟨"u1", 7⟩, by decide, rfl⟩).1

/-- C9: re-running onboarding over a stored profile whose two timestamps are set
sends a merge-write that names both timestamp fields with null, and the store
that commits it holds the profile with both timestamps cleared. -/
theorem C9_reonboarding_clears_timestamps :
    (handleEnterInfo (readyState (some (annProfile (some 1000) (some 2000))) [] "")
        (fun _ => true)).issued =
      [Write.setDocMerge "u1"
        { name := some "Ann", xUsername := some "@ann",
          lastLinkSubmissionTimestamp := some TsValue.null,
          lastEngagementTimestamp := some TsValue.null, userId := some "u1" }] ∧
      (annStore (annProfile (some 1000) (some 2000))).profiles "u1"
        = some (annProfile (some 1000) (some 2000)) ∧
      (commit (annStore (annProfile (some 1000) (some 2000))) 5000 "L9"
        (Write.setDocMerge "u1"
          { name := some "Ann", xUsername := some "@ann",
            lastLinkSubmissionTimestamp := some TsValue.null,
            lastEngagementTimestamp := some TsValue.null, userId := some "u1" })).bind
        (fun st => st.profiles "u1") = some (annProfile none none) := by
  refine ⟨by decide, by decide, by decide⟩

/-- The writes of a submit that passes: for a non-empty url, with the store
handle, a user id and a profile available, when the checks of handleSubmitLink
refuse nothing and the store
accepts both requests, the handler sends exactly an addDoc followed by an
updateDoc of the profile; committed in that order on a store that holds the
profile, they add one link (the url typed, the user id, the name and handle of
the local profile, no reaction, no engagement, the instant of the store) and
set lastLinkSubmissionTimestamp to the instant of the store, every other field
of that profile and every other profile and link staying as they were. -/
theorem handleSubmitLink_creates_link (s : AppState) (now : Int) (accept : Write → Bool)
    (u : String) (p : UserProfile)
    (hurl : s.newLinkUrl ≠ "") (hdb : s.db = true) (hu : s.userId = some u) (hne : u ≠ "")
    (hp : s.userProfile = some p) (hgate : submitRefusal p s.links now = none)
    (h1 : accept (Write.addLink
      { url := s.newLinkUrl, submittedByUserId := u, submittedByName := p.name,
        submittedByXUsername := p.xUsername, timestamp := TsValue.serverTimestamp,
        reactions := [], engagements := [] }) = true)
    (h2 : accept (Write.updateProfile u
      { lastLinkSubmissionTimestamp := some TsValue.serverTimestamp }) = true) :
    (handleSubmitLink s now accept).issued =
        [Write.addLink
          { url := s.newLinkUrl, submittedByUserId := u, submittedByName := p.name,
            submittedByXUsername := p.xUsername, timestamp := TsValue.serverTimestamp,
            reactions := [], engagements := [] },
         Write.updateProfile u
          { lastLinkSubmissionTimestamp := some TsValue.serverTimestamp }] ∧
      (handleSubmitLink s now accept).state.message = MSG_SUBMITTED ∧
      (∀ (st : Store) (t1 t2 : Int) (id1 id2 : String) (stored : UserProfile),
        st.profiles u = some stored →
        ∃ st1 st2,
          commit st t1 id1 (Write.addLink
            { url := s.newLinkUrl, submittedByUserId := u, submittedByName := p.name,
              submittedByXUsername := p.xUsername, timestamp := TsValue.serverTimestamp,
              reactions := [], engagements := [] }) = some st1 ∧
          commit st1 t2 id2 (Write.updateProfile u
            { lastLinkSubmissionTimestamp := some TsValue.serverTimestamp }) = some st2 ∧
          st2.links = st.links ++
            [{ id := id1, url := s.newLinkUrl, submittedByUserId := u,
               submittedByName := p.name, submittedByXUsername := p.xUsername,
               timestamp := some t1, reactions := some [], engagements := some [] }] ∧
          st2.profiles u = some { stored with lastLinkSubmissionTimestamp := some t2 } ∧
          ∀ v, v ≠ u → st2.profiles v = st.profiles v) := by
  refine ⟨?_, ?_, ?_⟩
  · simp [handleSubmitLink, hurl, hdb, hu, hne, hp, hgate, h1, h2]
  · simp [handleSubmitLink, hurl, hdb, hu, hne, hp, hgate, h1, h2, displayMessage]
  · intro st t1 t2 id1 id2 stored hst
    refine ⟨_, ⟨fun k => if k = u then some (mergeProfile t2 (some stored)
        { lastLinkSubmissionTimestamp := some TsValue.serverTimestamp }) else st.profiles k,
      st.links ++ [⟨id1, s.newLinkUrl, u, p.name, p.xUsername, some t1, some [], some []⟩]⟩,
      rfl, ?_, rfl, ?_, ?_⟩
    · simp only [commit, hst]
      rfl
    · simp [mergeProfile, resolveTs]
    · intro v hv
      simp [hv]

/-- The first submit on an empty board sends both writes. -/
theorem handleSubmitLink_creates_link_example :
    (handleSubmitLink (readyState (some (annProfile none none)) [] "http://x/1") 1000
        (fun _ => true)).issued =
      [Write.addLink
        { url := "http://x/1", submittedByUserId := "u1", submittedByName := "Ann",
          submittedByXUsername := "@ann", timestamp := TsValue.serverTimestamp,
          reactions := [], engagements := [] },
       Write.updateProfile "u1"
        { lastLinkSubmissionTimestamp := some TsValue.serverTimestamp }] :=
  (handleSubmitLink_creates_link (readyState (some (annProfile none none)) [] "http://x/1") 1000
    (fun _ => true) "u1" (annProfile none none) (by decide) rfl rfl (by decide) rfl
    (by decide) rfl rfl).1

/-- C10: on an empty board, with a non-empty url, the last submission 48 hours
old and the last engagement older than 24 hours, canSubmitLink allows the
submission and the store would accept every request, yet handleSubmitLink
sends none: no link is created and lastLinkSubmissionTimestamp is not set; it
shows the re-engagement notice, closes the modal and keeps the url typed. -/
theorem C10_allowed_submit_writes_nothing :
    canSubmitLink (readyState (some (annProfile (some 0) (some 1000))) [] "http://x/3")
        172800000 = true ∧
      (handleSubmitLink (readyState (some (annProfile (some 0) (some 1000))) [] "http://x/3")
        172800000 (fun _ => true)).issued = [] ∧
      (handleSubmitLink (readyState (some (annProfile (some 0) (some 1000))) [] "http://x/3")
        172800000 (fun _ => true)).state.message = MSG_ENGAGE_RECENT ∧
      (handleSubmitLink (readyState (some (annProfile (some 0) (some 1000))) [] "http://x/3")
        172800000 (fun _ => true)).state.messageType = "error" ∧
      (handleSubmitLink (readyState (some (annProfile (some 0) (some 1000))) [] "http://x/3")
        172800000 (fun _ => true)).state.showSubmitModal = false ∧
      (handleSubmitLink (readyState (some (annProfile (some 0) (some 1000))) [] "http://x/3")
        172800000 (fun _ => true)).state.newLinkUrl = "http://x/3" := by
  refine ⟨by decide, by decide, by decide, by decide, by decide, by decide⟩

/-! ## Listener theorems -/

/-- Putting a link into a list gives a permutation of the list with the link
in front. -/
theorem insertLink_perm (a : Link) (l : List Link) : (insertLink a l).Perm (a :: l) := by
  induction l with
  | nil => exact List.Perm.refl _
  | cons b rest ih =>
    unfold insertLink
    split
    · exact List.Perm.refl _
    · exact (List.Perm.cons b ih).trans (List.Perm.swap a b rest)

/-- The sort returns a permutation of its argument. -/
theorem sortLinks_perm (l : List Link) : (sortLinks l).Perm l := by
  induction l with
  | nil => exact List.Perm.refl _
  | cons a rest ih =>
    exact (insertLink_perm a (sortLinks rest)).trans (List.Perm.cons a ih)

/-- Putting a link into a list in descending key order keeps the order. -/
theorem insertLink_pairwise (a : Link) (l : List Link)
    (h : l.Pairwise (fun x y => sortKey x ≥ sortKey y)) :
    (insertLink a l).Pairwise (fun x y => sortKey x ≥ sortKey y) := by
  induction l with
  | nil => simp [insertLink]
  | cons b rest ih =>
    obtain ⟨hb, hrest⟩ := List.pairwise_cons.mp h
    unfold insertLink
    split
    · rename_i hle
      have hab : sortKey a ≥ sortKey b := by
        unfold compareLinks at hle
        omega
      refine List.pairwise_cons.mpr ⟨?_, h⟩
      intro x hx
      rcases List.mem_cons.mp hx with hx | hx
      · rw [hx]
        exact hab
      · exact le_trans (hb x hx) hab
    · rename_i hgt
      have hba : sortKey b ≥ sortKey a := by
        unfold compareLinks at hgt
        omega
      refine List.pairwise_cons.mpr ⟨?_, ih hrest⟩
      intro x hx
      rcases List.mem_cons.mp ((insertLink_perm a rest).subset hx) with hx | hx
      · rw [hx]
        exact hba
      · exact hb x hx

/-- The sort returns a list in descending key order. -/
theorem sortLinks_pairwise (l : List Link) :
    (sortLinks l).Pairwise (fun x y => sortKey x ≥ sortKey y) := by
  induction l with
  | nil => exact List.Pairwise.nil
  | cons a rest ih => exact insertLink_pairwise a (sortLinks rest) ih

/-- C11: on every push the listener sets as local link list a permutation of the
delivered documents in which every link has a key (its timestamp, zero when
missing) greater than or equal to the key of every later link, in particular
of the next one; no link without timestamp stands before a link with a positive
timestamp; links stamped 10, 30, 20 come out as 30, 20, 10, and a link without
timestamp delivered first comes out last. -/
theorem C11_links_sorted_descending (s : AppState) (docs : List Link) :
    (linksListener s docs).links.Perm docs ∧
      (linksListener s docs).links.Pairwise (fun a b => sortKey a ≥ sortKey b) ∧
      (linksListener s docs).links.Chain' (fun a b => sortKey a ≥ sortKey b) ∧
      (∀ l, sortKey l = l.timestamp.getD 0) ∧
      (linksListener s docs).links.Pairwise
        (fun a b => ¬ (a.timestamp = none ∧ ∃ t, b.timestamp = some t ∧ 0 < t)) ∧
      (linksListener s [stampedLink "a" (some 10), stampedLink "b" (some 30),
          stampedLink "c" (some 20)]).links =
        [stampedLink "b" (some 30), stampedLink "c" (some 20), stampedLink "a" (some 10)] ∧
      (linksListener s [stampedLink "a" none, stampedLink "b" (some 10),
          stampedLink "c" (some 30)]).links =
        [stampedLink "c" (some 30), stampedLink "b" (some 10), stampedLink "a" none] := by
  have hp := sortLinks_pairwise docs
  refine ⟨sortLinks_perm docs, hp, List.Pairwise.chain' hp, ?_, ?_, ?_, ?_⟩
  · intro l
    unfold sortKey
    cases h : l.timestamp with
    | none => rfl
    | some t =>
      by_cases ht : t = 0
      · simp [ht]
      · simp [ht]
  · refine List.Pairwise.imp ?_ hp
    intro a b hab hcon
    obtain ⟨ha, t, hb, ht⟩ := hcon
    have hka : sortKey a = 0 := by simp [sortKey, ha]
    have hkb : sortKey b = t := by
      have : t ≠ 0 := by omega
      simp [sortKey, hb, this]
    omega
  · show sortLinks _ = _
    decide
  · show sortLinks _ = _
    decide

/-! ## Engagement theorems -/

/-- C12: with the store handle, a user id and a profile available, the first
request handleEngageLink sends overwrites the engagements of the link with the
local copy's list (empty when the link or the field is absent locally)
followed by one entry of the user at the instant now: the earlier entries are
its first entries in order, the length grows by one, the user has one entry
more than before whatever the number was, and a store that commits the request
holds exactly that list for the link. -/
theorem C12_engage_appends_entry (s : AppState) (linkId url : String) (now : Int)
    (accept : Write → Bool) (u : String) (p : UserProfile)
    (hdb : s.db = true) (hu : s.userId = some u) (hne : u ≠ "")
    (hp : s.userProfile = some p) :
    (handleEngageLink s linkId url now accept).issued.head? =
        some (Write.updateLink linkId
          { engagements := some (localEngagements s.links linkId ++ [Engagement.mk u now]) }) ∧
      (s.links.find? (fun l => decide (l.id = linkId)) = none →
        localEngagements s.links linkId = []) ∧
      (∀ l, s.links.find? (fun l => decide (l.id = linkId)) = some l →
        (l.engagements = none → localEngagements s.links linkId = []) ∧
        (∀ es, l.engagements = some es → localEngagements s.links linkId = es)) ∧
      (localEngagements s.links linkId ++ [Engagement.mk u now]).length =
        (localEngagements s.links linkId).length + 1 ∧
      (localEngagements s.links linkId ++ [Engagement.mk u now]).take
        (localEngagements s.links linkId).length = localEngagements s.links linkId ∧
      (localEngagements s.links linkId ++ [Engagement.mk u now]).getLast? = some (Engagement.mk u now) ∧
      (localEngagements s.links linkId ++ [Engagement.mk u now]).countP (fun e => decide (e.userId = u)) =
        (localEngagements s.links linkId).countP (fun e => decide (e.userId = u)) + 1 ∧
      (∀ (st st1 : Store) (serverNow : Int) (newId : String),
        commit st serverNow newId (Write.updateLink linkId
          { engagements := some (localEngagements s.links linkId ++ [Engagement.mk u now]) }) = some st1 →
        ∀ d ∈ st1.links, d.id = linkId →
          d.engagements = some (localEngagements s.links linkId ++ [Engagement.mk u now])) := by
  refine ⟨?_, ?_, ?_, ?_, ?_, ?_, ?_, ?_⟩
  · unfold handleEngageLink
    simp only [hdb, hu, hp, hne, if_false]
    split
    · split <;> rfl
    · rfl
  · intro h
    simp [localEngagements, h]
  · intro l h
    exact ⟨fun he => by simp [localEngagements, h, he],
      fun es he => by simp [localEngagements, h, he]⟩
  · simp
  · simp
  · simp
  · simp [List.countP_append]
  · intro st st1 serverNow newId hc d hd hid
    simp only [commit] at hc
    split at hc
    · injection hc with hc
      subst hc
      simp only [List.mem_map] at hd
      obtain ⟨x, _, hx⟩ := hd
      by_cases hxi : x.id = linkId
      · simp only [hxi, if_true] at hx
        subst hx
        simp [mergeLink]
      · simp only [hxi, if_false] at hx
        subst hx
        exact absurd hid hxi
    · exact absurd hc (by simp)

/-- Witness of C12: the user engages a link that already has an entry of
theirs; the list written has that entry and one more. -/
theorem C12_engage_appends_entry_witness :
    (handleEngageLink (readyState (some (annProfile none (some 7)))
        [bobLink (some [⟨"u3", 5⟩, ⟨"u1", 7⟩]) none] "") "L1" "http://x/1" 9
        (fun _ => true)).issued.head? =
      some (Write.updateLink "L1"
        { engagements := some [⟨"u3", 5⟩, ⟨"u1", 7⟩, ⟨"u1", 9⟩] }) :=
  (C12_engage_appends_entry (readyState (some (annProfile none (some 7)))
      [bobLink (some [⟨"u3", 5⟩, ⟨"u1", 7⟩]) none] "") "L1" "http://x/1" 9
    (fun _ => true) "u1" (annProfile none (some 7)) rfl rfl (by decide) rfl).1

end App
